import Mathlib

/-!
Shallow embedding of the HLP broadcaster-suite client
(`src/unnamed/part_000`, `src/src/App.tsx`): the Dashboard component
(stream connection, event history, audio playback, toast, uptime clock)
and the VideoOverlay component (video playback with reset protocol).

State updates are modelled by explicit step functions on state records;
DOM/media side effects are modelled as action traces emitted per step.
-/

namespace HLP

/-- Connection status of the dashboard, `useState<"disconnected" | "connecting" | "connected">`. -/
inductive Status
  | disconnected
  | connecting
  | connected
  deriving DecidableEq, Repr

/-- Payload of a `play-sound` event (part_000 line 109). -/
structure SoundPayload where
  src : String
  filename : String
  username : Option String
  rewardName : Option String
  deriving DecidableEq, Repr

/-- Payload of a `play-video` event (part_000 line 867). -/
structure VideoPayload where
  src : String
  username : Option String
  rewardName : Option String
  deriving DecidableEq, Repr

/-- An entry of the event history (part_000 lines 4-10).
`id` is `Date.now().toString()`, `timestamp` the same instant. -/
structure EventRecord where
  id : String
  type : String
  timestamp : Nat
  description : String
  data : Option SoundPayload
  deriving DecidableEq, Repr

/-- Toast message state (part_000 line 27). -/
structure ToastMsg where
  username : String
  rewardName : String
  deriving DecidableEq, Repr

/-- Base URL (part_000 lines 12-15, local-hostname branch). Its value is
irrelevant to every claim; playback sources are formed by appending to it. -/
def apiBase : String := "http://localhost:8787"

/-- JavaScript truthiness of an optional string field: present and non-empty. -/
def truthyStr : Option String → Bool
  | none => false
  | some u => !u.isEmpty

/-- Inbound wire data for a typed event: either JSON that parses to the
expected payload shape, or data on which the listener's try block throws
(non-JSON text, or JSON `null`, whose field access throws). The `as` cast
in the listeners performs no validation, so data that parses as JSON but
violates the schema follows a third path, carried by the dedicated loose
inputs below. -/
inductive Wire (α : Type)
  | parsed (payload : α)
  | malformed (raw : String)
  deriving DecidableEq, Repr

/-- What the `play-sound` listener observes of a payload that `JSON.parse`
accepts but that violates the schema: each field access yields the field
when present and JS `undefined` otherwise (for a primitive or array value
every field is absent; `null` is excluded — field access on it throws,
landing in the catch like non-JSON data). -/
structure LooseSoundPayload where
  src : Option String
  filename : Option String
  username : Option String
  rewardName : Option String
  deriving DecidableEq, Repr

/-- Loose view of a `play-video` payload, as `LooseSoundPayload`. -/
structure LooseVideoPayload where
  src : Option String
  username : Option String
  rewardName : Option String
  deriving DecidableEq, Repr

/-- JS template-literal interpolation of a possibly-undefined field:
`${undefined}` renders as the string "undefined". -/
def jsInterp : Option String → String
  | none => "undefined"
  | some s => s

/-- Dashboard state: the `useState` hooks of `Dashboard` (part_000 lines 17-28)
plus bookkeeping for the mutable refs and the EventSource lifetime:
`audioPresent` models `audioRef.current !== null`, `esAlive` models an open
EventSource whose listeners can fire, `esGen` counts EventSource creations,
`toastTimers` holds deadlines of pending `setTimeout(() => setToast(null), 5000)`. -/
structure DashState where
  status : Status
  events : List EventRecord
  volume : Rat
  muted : Bool
  connectedAt : Option Nat
  eventCount : Nat
  soundsPlayed : Nat
  toast : Option ToastMsg
  toastTimers : List Nat
  audioPresent : Bool
  esAlive : Bool
  esGen : Nat
  deriving DecidableEq, Repr

/-- Initial dashboard state (the `useState` initial values). -/
def initialDashState : DashState :=
  { status := .disconnected
    events := []
    volume := 7/10
    muted := false
    connectedAt := none
    eventCount := 0
    soundsPlayed := 0
    toast := none
    toastTimers := []
    audioPresent := false
    esAlive := false
    esGen := 0 }

/-- `addEvent` (part_000 lines 33-43): builds a record with
`id = Date.now().toString()`, puts it in front of `prev.slice(0, 99)`,
and increments the total event counter. -/
def addEvent (now : Nat) (ty desc : String) (data : Option SoundPayload)
    (s : DashState) : DashState :=
  { s with
    events := { id := toString now, type := ty, timestamp := now
                description := desc, data := data } :: s.events.take 99
    eventCount := s.eventCount + 1 }

/-- `clearHistory` (part_000 lines 145-149). -/
def clearHistoryStep (s : DashState) : DashState :=
  { s with events := [], eventCount := 0, soundsPlayed := 0 }

/-- Observable operations issued on the single audio element
in the `play-sound` handler (part_000 lines 114-118). -/
inductive AudioAction
  | setVolume (v : Rat)
  | setSrc (url : String)
  | play
  deriving DecidableEq, Repr

/-- Effect setup (part_000 lines 89-93): status to connecting, one system
record, and a fresh EventSource. -/
def mountStep (now : Nat) (s : DashState) : DashState :=
  addEvent now "system" "Connecting to server..." none
    { s with status := .connecting, esAlive := true, esGen := s.esGen + 1 }

/-- Effect cleanup (part_000 lines 139-142): close the EventSource and
record one system record. The status is not touched. -/
def cleanupStep (now : Nat) (s : DashState) : DashState :=
  addEvent now "system" "Disconnected from server" none
    { s with esAlive := false }

/-- `es.onopen` (part_000 lines 95-99). -/
def openStep (now : Nat) (s : DashState) : DashState :=
  addEvent now "connection" "Connected to server" none
    { s with status := .connected, connectedAt := some now }

/-- `connected` listener (part_000 lines 101-105). -/
def connectedStep (now : Nat) (s : DashState) : DashState :=
  addEvent now "connection" "Server connection established" none
    { s with status := .connected, connectedAt := some now }

/-- `es.onerror` (part_000 lines 133-137). -/
def errorStep (now : Nat) (s : DashState) : DashState :=
  addEvent now "error" "Connection lost, attempting to reconnect..." none
    { s with status := .connecting }

/-- Body of the `play-sound` listener on a successfully parsed payload
(part_000 lines 109-127). `playOk` is the outcome of the `audio.play()`
promise; its rejection handler appends one error record. -/
def soundStep (now : Nat) (p : SoundPayload) (playOk : Bool)
    (s : DashState) : DashState × List AudioAction :=
  let s1 := addEvent now "sound" ("Playing: " ++ p.filename) (some p) s
  let s2 := { s1 with soundsPlayed := s1.soundsPlayed + 1 }
  let sa : DashState × List AudioAction :=
    if s2.muted then (s2, [])
    else
      let acts := [AudioAction.setVolume s2.volume,
                   AudioAction.setSrc (apiBase ++ p.src), AudioAction.play]
      let s3 := { s2 with audioPresent := true }
      if playOk then (s3, acts)
      else (addEvent now "error" ("Failed to play: " ++ p.filename) none s3, acts)
  let s4 :=
    if truthyStr p.username && truthyStr p.rewardName then
      { sa.1 with
        toast := some { username := p.username.getD "", rewardName := p.rewardName.getD "" }
        toastTimers := sa.1.toastTimers ++ [now + 5000] }
    else sa.1
  (s4, sa.2)

/-- Body of the `play-sound` listener (part_000 lines 109-127) on data
that `JSON.parse` accepts but that violates the schema: the `as` cast
performs no validation, so the handler proceeds with possibly-undefined
fields, interpolated via `jsInterp`. The parsed object passed as the
record's opaque `data` is never read anywhere in the program (rendering
uses only id, type, timestamp and description), so its value is not
modelled here. -/
def soundStepLoose (now : Nat) (p : LooseSoundPayload) (playOk : Bool)
    (s : DashState) : DashState × List AudioAction :=
  let s1 := addEvent now "sound" ("Playing: " ++ jsInterp p.filename) none s
  let s2 := { s1 with soundsPlayed := s1.soundsPlayed + 1 }
  let sa : DashState × List AudioAction :=
    if s2.muted then (s2, [])
    else
      let acts := [AudioAction.setVolume s2.volume,
                   AudioAction.setSrc (apiBase ++ jsInterp p.src), AudioAction.play]
      let s3 := { s2 with audioPresent := true }
      if playOk then (s3, acts)
      else (addEvent now "error" ("Failed to play: " ++ jsInterp p.filename) none s3, acts)
  let s4 :=
    if truthyStr p.username && truthyStr p.rewardName then
      { sa.1 with
        toast := some { username := p.username.getD "", rewardName := p.rewardName.getD "" }
        toastTimers := sa.1.toastTimers ++ [now + 5000] }
    else sa.1
  (s4, sa.2)

/-- A pending `setTimeout(() => setToast(null), 5000)` firing at its
deadline (part_000 line 126). -/
def timerStep (deadline : Nat) (s : DashState) : DashState :=
  if deadline ∈ s.toastTimers then
    { s with toast := none, toastTimers := s.toastTimers.erase deadline }
  else s

/-- An input to the dashboard state machine. `policyChange` is the user
moving the volume slider or toggling mute, which re-runs the effect whose
dependency array is `[volume, muted]` (part_000 line 143). -/
inductive DashInput
  | mount
  | esOpen
  | connectedEvt
  | playSound (w : Wire SoundPayload) (playOk : Bool)
  | playSoundLoose (p : LooseSoundPayload) (playOk : Bool)
  | esError
  | cleanup
  | clearHistory
  | toastTimer (deadline : Nat)
  | policyChange (v : Rat) (m : Bool)
  deriving DecidableEq, Repr

/-- One dashboard step. EventSource-delivered inputs (`esOpen`,
`connectedEvt`, `playSound`, `playSoundLoose`, `esError`) fire only while
the EventSource is open. Returns the new state and the audio actions issued during the step. -/
def dashStep (now : Nat) (s : DashState) : DashInput → DashState × List AudioAction
  | .mount => (mountStep now s, [])
  | .esOpen => (if s.esAlive then openStep now s else s, [])
  | .connectedEvt => (if s.esAlive then connectedStep now s else s, [])
  | .playSound w playOk =>
      if s.esAlive then
        match w with
        | .parsed p => soundStep now p playOk s
        | .malformed _ =>
            (addEvent now "error" "Failed to parse sound event" none s, [])
      else (s, [])
  | .playSoundLoose p playOk =>
      if s.esAlive then soundStepLoose now p playOk s else (s, [])
  | .esError => (if s.esAlive then errorStep now s else s, [])
  | .cleanup => (cleanupStep now s, [])
  | .clearHistory => (clearHistoryStep s, [])
  | .toastTimer d => (timerStep d s, [])
  | .policyChange v m =>
      (mountStep now { cleanupStep now s with volume := v, muted := m }, [])

/-! ### C1: history length, total event count, clear -/

/-- One `addEvent` call request: the `Date.now()` instant and the arguments. -/
structure RecordReq where
  now : Nat
  ty : String
  desc : String
  data : Option SoundPayload

/-- Fold a sequence of `addEvent` calls over the dashboard state. -/
def recordAll (reqs : List RecordReq) (s : DashState) : DashState :=
  reqs.foldl (fun st r => addEvent r.now r.ty r.desc r.data st) s

theorem addEvent_events_length (now : Nat) (ty desc : String)
    (data : Option SoundPayload) (s : DashState) :
    (addEvent now ty desc data s).events.length = min (s.events.length + 1) 100 := by
  simp only [addEvent, List.length_cons, List.length_take]
  omega

theorem recordAll_events_length (reqs : List RecordReq) (s : DashState)
    (h : s.events.length ≤ 100) :
    (recordAll reqs s).events.length = min (s.events.length + reqs.length) 100 := by
  induction reqs generalizing s with
  | nil => simpa [recordAll] using by omega
  | cons r rs ih =>
      have h1 := addEvent_events_length r.now r.ty r.desc r.data s
      have h2 : (addEvent r.now r.ty r.desc r.data s).events.length ≤ 100 := by omega
      have h3 := ih (addEvent r.now r.ty r.desc r.data s) h2
      simp only [recordAll, List.foldl_cons, List.length_cons] at *
      omega

theorem recordAll_eventCount (reqs : List RecordReq) (s : DashState) :
    (recordAll reqs s).eventCount = s.eventCount + reqs.length := by
  induction reqs generalizing s with
  | nil => simp [recordAll]
  | cons r rs ih =>
      simp only [recordAll, List.foldl_cons] at *
      rw [ih]
      simp [addEvent]
      omega

/-- C1: starting from an empty history with zero counter, processing any
sequence of N record calls leaves the history log at length min(N, 100)
while `eventCount` equals N (the counter increments on every call,
truncation notwithstanding); and after `clearHistory` the log, the total
counter and the sounds-played counter are all 0, from any state. -/
theorem C1_history_bound_and_counters (reqs : List RecordReq) (s : DashState)
    (hev : s.events = []) (hc : s.eventCount = 0) :
    (recordAll reqs s).events.length = min reqs.length 100 ∧
    (recordAll reqs s).eventCount = reqs.length ∧
    ∀ t : DashState,
      (clearHistoryStep t).events.length = 0 ∧
      (clearHistoryStep t).eventCount = 0 ∧
      (clearHistoryStep t).soundsPlayed = 0 := by
  refine ⟨?_, ?_, ?_⟩
  · have := recordAll_events_length reqs s (by simp [hev])
    simpa [hev] using this
  · simpa [hc] using recordAll_eventCount reqs s
  · intro t
    simp [clearHistoryStep]

/-- Witness for C1 at a concrete three-call sequence from the initial state. -/
theorem C1_history_bound_and_counters_witness :
    (recordAll
      [⟨5, "system", "Connecting to server...", none⟩,
       ⟨6, "connection", "Connected to server", none⟩,
       ⟨7, "error", "Connection lost, attempting to reconnect...", none⟩]
      initialDashState).events.length = min 3 100 ∧
    (recordAll
      [⟨5, "system", "Connecting to server...", none⟩,
       ⟨6, "connection", "Connected to server", none⟩,
       ⟨7, "error", "Connection lost, attempting to reconnect...", none⟩]
      initialDashState).eventCount = 3 ∧
    ∀ t : DashState,
      (clearHistoryStep t).events.length = 0 ∧
      (clearHistoryStep t).eventCount = 0 ∧
      (clearHistoryStep t).soundsPlayed = 0 :=
  C1_history_bound_and_counters _ initialDashState rfl rfl

/-! ### VideoOverlay model (part_000 lines 828-972) -/

/-- Observable operations issued on the single video element. -/
inductive VideoAction
  | pause
  | clearSrc
  | load
  | setSrc (url : String)
  | setMuted (b : Bool)
  | setVolume (v : Rat)
  | play
  deriving DecidableEq, Repr

/-- VideoOverlay state: the `useState` hooks of `VideoOverlay`
(part_000 lines 829-833) plus `elPresent` for `videoRef.current !== null`
and `esAlive` for an open EventSource, as in the dashboard model. -/
structure OverlayState where
  visible : Bool
  toast : Option ToastMsg
  toastTimers : List Nat
  elPresent : Bool
  esAlive : Bool
  deriving DecidableEq, Repr

/-- Initial overlay state before the EventSource effect has run. -/
def initialOverlayState : OverlayState :=
  { visible := false, toast := none, toastTimers := [], elPresent := true, esAlive := false }

/-- `playVideo` (part_000 lines 838-861): returns early when the video ref
is empty; otherwise pause, remove the src attribute, `load()`, assign the
new source, mute, full volume, mark visible, `play()` (whose rejection
handler is a no-op), then the toast block. Returns the new state, the
video actions, and the `EventRecord`s emitted (the overlay keeps no
history, so none are ever produced). -/
def playVideoStep (now : Nat) (p : VideoPayload) (s : OverlayState) :
    OverlayState × List VideoAction × List EventRecord :=
  if s.elPresent then
    let acts := [VideoAction.pause, VideoAction.clearSrc, VideoAction.load,
                 VideoAction.setSrc (apiBase ++ p.src), VideoAction.setMuted true,
                 VideoAction.setVolume 1, VideoAction.play]
    let s1 := { s with visible := true }
    let s2 :=
      if truthyStr p.username && truthyStr p.rewardName then
        { s1 with
          toast := some { username := p.username.getD "", rewardName := p.rewardName.getD "" }
          toastTimers := s1.toastTimers ++ [now + 5000] }
      else s1
    (s2, acts, [])
  else (s, [], [])

/-- The `onEnded` / `onError` handler body of the video element
(part_000 lines 902-927): reset the slot when present, then hide. -/
def endedStep (s : OverlayState) : OverlayState × List VideoAction × List EventRecord :=
  ({ s with visible := false },
   if s.elPresent then [VideoAction.pause, VideoAction.clearSrc, VideoAction.load] else [],
   [])

/-- `playVideo` on a schema-violating payload that still parsed as JSON:
`playVideo(payload.src, payload.username, payload.rewardName)` is called
with possibly-undefined arguments, so the source assignment interpolates
"undefined"; everything else proceeds as in `playVideoStep`. -/
def playVideoLooseStep (now : Nat) (p : LooseVideoPayload) (s : OverlayState) :
    OverlayState × List VideoAction × List EventRecord :=
  if s.elPresent then
    let acts := [VideoAction.pause, VideoAction.clearSrc, VideoAction.load,
                 VideoAction.setSrc (apiBase ++ jsInterp p.src), VideoAction.setMuted true,
                 VideoAction.setVolume 1, VideoAction.play]
    let s1 := { s with visible := true }
    let s2 :=
      if truthyStr p.username && truthyStr p.rewardName then
        { s1 with
          toast := some { username := p.username.getD "", rewardName := p.rewardName.getD "" }
          toastTimers := s1.toastTimers ++ [now + 5000] }
      else s1
    (s2, acts, [])
  else (s, [], [])

/-- An input to the overlay machine. `ended`/`errored` are the video
element callbacks, which fire independently of the EventSource.
`playVideoLooseEvt` delivers a schema-violating payload that parsed as
JSON, as `playSoundLoose` does for the dashboard. -/
inductive OverlayInput
  | mount
  | playVideoEvt (w : Wire VideoPayload) (playOk : Bool)
  | playVideoLooseEvt (p : LooseVideoPayload) (playOk : Bool)
  | ended
  | errored
  | toastTimer (deadline : Nat)
  | cleanup
  deriving DecidableEq, Repr

/-- One overlay step: state, video actions, and emitted `EventRecord`s.
A malformed `play-video` payload hits the `catch` at part_000 lines
869-871, which is a no-op. The `play()` rejection handler is
`.catch(() => undefined)` (line 854), so `playOk` has no effect. -/
def overlayStep (now : Nat) (s : OverlayState) :
    OverlayInput → OverlayState × List VideoAction × List EventRecord
  | .mount => ({ s with esAlive := true }, [], [])
  | .playVideoEvt w _ =>
      if s.esAlive then
        match w with
        | .parsed p => playVideoStep now p s
        | .malformed _ => (s, [], [])
      else (s, [], [])
  | .playVideoLooseEvt p _ =>
      if s.esAlive then playVideoLooseStep now p s else (s, [], [])
  | .ended => endedStep s
  | .errored => endedStep s
  | .toastTimer d =>
      (if d ∈ s.toastTimers then
        { s with toast := none, toastTimers := s.toastTimers.erase d }
      else s, [], [])
  | .cleanup => ({ s with esAlive := false }, [], [])

/-! ### C2: the video reset protocol precedes every play -/

/-- Scans an action trace left to right tracking how much of the reset
protocol (pause, then clear source, then reload) has been completed, and
checks that every `play` occurs only after the full protocol. -/
def resetScan : List VideoAction → Nat → Bool
  | [], _ => true
  | a :: rest, st =>
    match a with
    | .pause => resetScan rest (if st = 0 then 1 else st)
    | .clearSrc => resetScan rest (if st = 1 then 2 else st)
    | .load => resetScan rest (if st = 2 then 3 else st)
    | .play => decide (st = 3) && resetScan rest st
    | _ => resetScan rest st

/-- Every `play` in the trace is preceded by pause, clear-source, reload,
in that order, within the trace. -/
def resetPrecedesPlay (acts : List VideoAction) : Bool :=
  resetScan acts 0

/-- C2: in every handling step of a play-video cue — whatever the wire
data, the play outcome and the prior state, including the very first cue —
any `play` issued on the video slot is preceded within that same step by
pause, source clearing and reload of the slot; when the slot is present the
step's trace is exactly reset-then-assign-then-play and the surface becomes
visible; and the end-of-playback and playback-error handlers both perform
the same pause/clear/reload reset (when the slot is present) and mark the
surface not-visible. -/
theorem C2_video_reset_protocol (now : Nat) (s : OverlayState)
    (w : Wire VideoPayload) (playOk : Bool) (p : VideoPayload) :
    resetPrecedesPlay (overlayStep now s (.playVideoEvt w playOk)).2.1 = true ∧
    ((overlayStep now s (.playVideoEvt (.parsed p) playOk)).2.1 =
      if s.esAlive && s.elPresent then
        [VideoAction.pause, VideoAction.clearSrc, VideoAction.load,
         VideoAction.setSrc (apiBase ++ p.src), VideoAction.setMuted true,
         VideoAction.setVolume 1, VideoAction.play]
      else []) ∧
    ((overlayStep now s (.playVideoEvt (.parsed p) playOk)).1.visible =
      if s.esAlive && s.elPresent then true else s.visible) ∧
    ((overlayStep now s .ended).2.1 =
      if s.elPresent then [VideoAction.pause, VideoAction.clearSrc, VideoAction.load] else []) ∧
    (overlayStep now s .ended).1.visible = false ∧
    ((overlayStep now s .errored).2.1 =
      if s.elPresent then [VideoAction.pause, VideoAction.clearSrc, VideoAction.load] else []) ∧
    (overlayStep now s .errored).1.visible = false := by
  refine ⟨?_, ?_, ?_, ?_, ?_, ?_, ?_⟩ <;>
    cases hA : s.esAlive <;> cases hE : s.elPresent <;>
      cases w <;>
        simp [overlayStep, playVideoStep, endedStep, hA, hE,
          resetPrecedesPlay, resetScan] <;>
          split <;> simp [resetScan]

/-! ### C3: connection status transitions -/

/-- The allowed status transitions of the specification. -/
def allowedTrans : Status → Status → Bool
  | .disconnected, .connecting => true
  | .connecting, .connected => true
  | .connected, .connecting => true
  | .connecting, .connecting => true
  | _, _ => false

/-- While the EventSource is open, the status is never `disconnected`:
the effect sets it to `connecting` before creating the EventSource. -/
def statusInv (s : DashState) : Prop :=
  s.esAlive = true → s.status ≠ Status.disconnected

/-- The error record appended by `es.onerror` at instant `now`. -/
def connectionErrorRecord (now : Nat) : EventRecord :=
  { id := toString now, type := "error", timestamp := now
    description := "Connection lost, attempting to reconnect...", data := none }

/-- C3: under the invariant that an open EventSource implies a
non-disconnected status (established at mount and preserved by every
step), every dashboard step either leaves the status unchanged or moves it
along one of Disconnected→Connecting, Connecting→Connected,
Connected→Connecting, Connecting→Connecting; no step ever moves a
non-disconnected status (back) to Disconnected; and a transport-reported
error sets the status to Connecting while recording exactly one "error"
EventRecord (the rest of the log merely truncated). -/
theorem C3_status_transitions (now : Nat) (s : DashState) (i : DashInput)
    (hinv : statusInv s) :
    statusInv (dashStep now s i).1 ∧
    ((dashStep now s i).1.status = s.status ∨
      allowedTrans s.status (dashStep now s i).1.status = true) ∧
    ((dashStep now s i).1.status = Status.disconnected → s.status = Status.disconnected) ∧
    (i = DashInput.esError → s.esAlive = true →
      (dashStep now s i).1.status = Status.connecting ∧
      (dashStep now s i).1.events = connectionErrorRecord now :: s.events.take 99 ∧
      (dashStep now s i).1.eventCount = s.eventCount + 1) := by
  have hsound : ∀ (p : SoundPayload) (ok : Bool),
      (soundStep now p ok s).1.status = s.status ∧
      (soundStep now p ok s).1.esAlive = s.esAlive := by
    intro p ok
    cases hm : s.muted <;> cases ok <;>
      simp [soundStep, addEvent, hm] <;> (try split) <;> simp
  have hsoundL : ∀ (p : LooseSoundPayload) (ok : Bool),
      (soundStepLoose now p ok s).1.status = s.status ∧
      (soundStepLoose now p ok s).1.esAlive = s.esAlive := by
    intro p ok
    cases hm : s.muted <;> cases ok <;>
      simp [soundStepLoose, addEvent, hm] <;> (try split) <;> simp
  simp only [statusInv] at hinv ⊢
  cases i with
  | mount =>
      cases hS : s.status <;>
        simp [dashStep, mountStep, addEvent, allowedTrans, hS]
  | esOpen =>
      cases hA : s.esAlive <;> cases hS : s.status <;>
        simp_all [dashStep, openStep, addEvent, allowedTrans]
  | connectedEvt =>
      cases hA : s.esAlive <;> cases hS : s.status <;>
        simp_all [dashStep, connectedStep, addEvent, allowedTrans]
  | esError =>
      cases hA : s.esAlive <;> cases hS : s.status <;>
        simp_all [dashStep, errorStep, addEvent, allowedTrans, connectionErrorRecord]
  | cleanup =>
      cases hS : s.status <;>
        simp_all [dashStep, cleanupStep, addEvent, allowedTrans]
  | clearHistory =>
      cases hA : s.esAlive <;>
        simp_all [dashStep, clearHistoryStep, allowedTrans]
  | toastTimer d =>
      cases hA : s.esAlive <;>
        simp_all [dashStep, timerStep, allowedTrans] <;>
          split <;> simp_all
  | policyChange v m =>
      cases hS : s.status <;>
        simp [dashStep, mountStep, cleanupStep, addEvent, allowedTrans, hS]
  | playSound w ok =>
      cases hA : s.esAlive with
      | false => simp_all [dashStep]
      | true =>
          cases w with
          | malformed raw =>
              simp_all [dashStep, addEvent]
          | parsed p =>
              have h1 := (hsound p ok).1
              have h2 := (hsound p ok).2
              refine ⟨?_, ?_, ?_, ?_⟩
              · intro ha
                simp only [dashStep, hA, if_true] at ha ⊢
                rw [h1]
                exact hinv (by rw [← h2, ha])
              · left
                simp only [dashStep, hA, if_true]
                exact h1
              · intro hd
                simp only [dashStep, hA, if_true] at hd
                rw [← h1]
                exact hd
              · intro hcontr
                exact absurd hcontr (by simp)
  | playSoundLoose p ok =>
      cases hA : s.esAlive with
      | false => simp_all [dashStep]
      | true =>
          have h1 := (hsoundL p ok).1
          have h2 := (hsoundL p ok).2
          refine ⟨?_, ?_, ?_, ?_⟩
          · intro ha
            simp only [dashStep, hA, if_true] at ha ⊢
            rw [h1]
            exact hinv (by rw [← h2, ha])
          · left
            simp only [dashStep, hA, if_true]
            exact h1
          · intro hd
            simp only [dashStep, hA, if_true] at hd
            rw [← h1]
            exact hd
          · intro hcontr
            exact absurd hcontr (by simp)

/-- Witness for C3: a transport error while connected, from a concrete
reachable state. -/
theorem C3_status_transitions_witness :
    statusInv (dashStep 9 (openStep 8 (mountStep 7 initialDashState)) DashInput.esError).1 ∧
    ((dashStep 9 (openStep 8 (mountStep 7 initialDashState)) DashInput.esError).1.status =
        (openStep 8 (mountStep 7 initialDashState)).status ∨
      allowedTrans (openStep 8 (mountStep 7 initialDashState)).status
        (dashStep 9 (openStep 8 (mountStep 7 initialDashState)) DashInput.esError).1.status = true) ∧
    ((dashStep 9 (openStep 8 (mountStep 7 initialDashState)) DashInput.esError).1.status =
        Status.disconnected →
      (openStep 8 (mountStep 7 initialDashState)).status = Status.disconnected) ∧
    (DashInput.esError = DashInput.esError →
      (openStep 8 (mountStep 7 initialDashState)).esAlive = true →
      (dashStep 9 (openStep 8 (mountStep 7 initialDashState)) DashInput.esError).1.status =
        Status.connecting ∧
      (dashStep 9 (openStep 8 (mountStep 7 initialDashState)) DashInput.esError).1.events =
        connectionErrorRecord 9 :: (openStep 8 (mountStep 7 initialDashState)).events.take 99 ∧
      (dashStep 9 (openStep 8 (mountStep 7 initialDashState)) DashInput.esError).1.eventCount =
        (openStep 8 (mountStep 7 initialDashState)).eventCount + 1) :=
  C3_status_transitions 9 (openStep 8 (mountStep 7 initialDashState)) DashInput.esError
    (by intro _ h; simp [openStep, mountStep, addEvent, initialDashState] at h)

/-! ### C4: mute suppresses playback but not recording -/

/-- The "sound" record appended for a cue at instant `now`. -/
def soundRecord (now : Nat) (p : SoundPayload) : EventRecord :=
  { id := toString now, type := "sound", timestamp := now
    description := "Playing: " ++ p.filename, data := some p }

/-- The "sound" record appended for a schema-violating cue at instant
`now`: the handler interpolates an absent filename as "undefined". The
parsed object the code passes as the record's opaque `data` is never read
by the program, so it is not modelled (see `soundStepLoose`). -/
def looseSoundRecord (now : Nat) (p : LooseSoundPayload) : EventRecord :=
  { id := toString now, type := "sound", timestamp := now
    description := "Playing: " ++ jsInterp p.filename, data := none }

/-- C4: whenever the mute flag is set — whatever the current volume, the
payload or the would-be play outcome — handling a `play-sound` cue issues
no audio action at all, while the cue is still recorded: a "sound"
EventRecord is prepended to the (truncated) history and both the total
event counter and the sounds-played counter increment. This holds for
every sound cue the dashboard handles: a well-typed payload and a
schema-violating one alike. -/
theorem C4_mute_suppresses_playback (now : Nat) (s : DashState)
    (p : SoundPayload) (lp : LooseSoundPayload) (playOk : Bool)
    (hm : s.muted = true) (ha : s.esAlive = true) :
    (dashStep now s (.playSound (.parsed p) playOk)).2 = [] ∧
    (dashStep now s (.playSound (.parsed p) playOk)).1.events =
      soundRecord now p :: s.events.take 99 ∧
    (dashStep now s (.playSound (.parsed p) playOk)).1.eventCount = s.eventCount + 1 ∧
    (dashStep now s (.playSound (.parsed p) playOk)).1.soundsPlayed = s.soundsPlayed + 1 ∧
    (dashStep now s (.playSoundLoose lp playOk)).2 = [] ∧
    (dashStep now s (.playSoundLoose lp playOk)).1.events =
      looseSoundRecord now lp :: s.events.take 99 ∧
    (dashStep now s (.playSoundLoose lp playOk)).1.eventCount = s.eventCount + 1 ∧
    (dashStep now s (.playSoundLoose lp playOk)).1.soundsPlayed = s.soundsPlayed + 1 := by
  refine ⟨?_, ?_, ?_, ?_, ?_, ?_, ?_, ?_⟩ <;>
    simp only [dashStep, ha, if_true] <;>
      cases playOk <;>
        simp [soundStep, soundStepLoose, addEvent, hm, soundRecord, looseSoundRecord] <;>
          (try split) <;> simp

/-- Witness for C4 at a muted concrete state with volume 1. -/
theorem C4_mute_suppresses_playback_witness :
    (dashStep 11 { mountStep 7 initialDashState with muted := true, volume := 1 }
      (.playSound (.parsed ⟨"/s/a.mp3", "a.mp3", none, none⟩) true)).2 = [] ∧
    (dashStep 11 { mountStep 7 initialDashState with muted := true, volume := 1 }
      (.playSound (.parsed ⟨"/s/a.mp3", "a.mp3", none, none⟩) true)).1.events =
      soundRecord 11 ⟨"/s/a.mp3", "a.mp3", none, none⟩ ::
        ({ mountStep 7 initialDashState with
            muted := true, volume := 1 } : DashState).events.take 99 ∧
    (dashStep 11 { mountStep 7 initialDashState with muted := true, volume := 1 }
      (.playSound (.parsed ⟨"/s/a.mp3", "a.mp3", none, none⟩) true)).1.eventCount =
      ({ mountStep 7 initialDashState with
          muted := true, volume := 1 } : DashState).eventCount + 1 ∧
    (dashStep 11 { mountStep 7 initialDashState with muted := true, volume := 1 }
      (.playSound (.parsed ⟨"/s/a.mp3", "a.mp3", none, none⟩) true)).1.soundsPlayed =
      ({ mountStep 7 initialDashState with
          muted := true, volume := 1 } : DashState).soundsPlayed + 1 ∧
    (dashStep 11 { mountStep 7 initialDashState with muted := true, volume := 1 }
      (.playSoundLoose ⟨none, none, none, none⟩ true)).2 = [] ∧
    (dashStep 11 { mountStep 7 initialDashState with muted := true, volume := 1 }
      (.playSoundLoose ⟨none, none, none, none⟩ true)).1.events =
      looseSoundRecord 11 ⟨none, none, none, none⟩ ::
        ({ mountStep 7 initialDashState with
            muted := true, volume := 1 } : DashState).events.take 99 ∧
    (dashStep 11 { mountStep 7 initialDashState with muted := true, volume := 1 }
      (.playSoundLoose ⟨none, none, none, none⟩ true)).1.eventCount =
      ({ mountStep 7 initialDashState with
          muted := true, volume := 1 } : DashState).eventCount + 1 ∧
    (dashStep 11 { mountStep 7 initialDashState with muted := true, volume := 1 }
      (.playSoundLoose ⟨none, none, none, none⟩ true)).1.soundsPlayed =
      ({ mountStep 7 initialDashState with
          muted := true, volume := 1 } : DashState).soundsPlayed + 1 :=
  C4_mute_suppresses_playback 11 _ _ ⟨none, none, none, none⟩ true rfl rfl

/-! ### C10: volume/mute changes tear down and re-establish the stream -/

/-- The "system" record of the effect cleanup at instant `now`. -/
def disconnectRecord (now : Nat) : EventRecord :=
  { id := toString now, type := "system", timestamp := now
    description := "Disconnected from server", data := none }

/-- The "system" record of the effect setup at instant `now`. -/
def connectingRecord (now : Nat) : EventRecord :=
  { id := toString now, type := "system", timestamp := now
    description := "Connecting to server...", data := none }

/-- C10: a change of the volume value or the mute flag re-runs the
EventSource effect: the old source is closed and a "Disconnected from
server" system record appended, then the status is set to connecting with
a "Connecting to server..." system record appended on top, and a fresh
EventSource is opened (the generation counter increments and the
connection is alive); the new volume and mute values are in force, the
total event counter grows by exactly the two system records, and no audio
action is issued. -/
theorem C10_policy_change_reconnects (now : Nat) (s : DashState) (v : Rat) (m : Bool) :
    (dashStep now s (.policyChange v m)).1.status = Status.connecting ∧
    (dashStep now s (.policyChange v m)).1.events =
      connectingRecord now :: (disconnectRecord now :: s.events.take 99).take 99 ∧
    (dashStep now s (.policyChange v m)).1.eventCount = s.eventCount + 2 ∧
    (dashStep now s (.policyChange v m)).1.esAlive = true ∧
    (dashStep now s (.policyChange v m)).1.esGen = s.esGen + 1 ∧
    (dashStep now s (.policyChange v m)).1.volume = v ∧
    (dashStep now s (.policyChange v m)).1.muted = m ∧
    (dashStep now s (.policyChange v m)).2 = [] := by
  simp [dashStep, mountStep, cleanupStep, addEvent, disconnectRecord, connectingRecord]

/-! ### C5: malformed payloads -/

/-- The parse-failure record of the `play-sound` listener at instant `now`. -/
def parseErrorRecord (now : Nat) : EventRecord :=
  { id := toString now, type := "error", timestamp := now
    description := "Failed to parse sound event", data := none }

/-- C5 counterexample, refuting the claim on both of its failure classes.
Non-JSON data: the overlay is caught by a no-op `catch` (part_000 lines
869-871), so zero EventRecords are emitted — not the exactly one "error"
record the claim requires for every subscribed event type. Schema-violating
JSON (here `\x7b\x7d`: every field absent): the dashboard handler is invoked
normally — it appends a "sound" record "Playing: undefined" rather than an
"error" record, and issues a playback attempt rather than zero. -/
theorem C5_counterexample_malformed_and_schema_violating :
    ((overlayStep 3 { initialOverlayState with esAlive := true }
        (.playVideoEvt (.malformed "not json") true)).2.2 = [] ∧
     ¬ (overlayStep 3 { initialOverlayState with esAlive := true }
        (.playVideoEvt (.malformed "not json") true)).2.2.length = 1) ∧
    ((dashStep 8 (mountStep 7 initialDashState)
        (.playSoundLoose ⟨none, none, none, none⟩ true)).1.events.map (fun r => r.type) =
      ["sound", "system"] ∧
     (dashStep 8 (mountStep 7 initialDashState)
        (.playSoundLoose ⟨none, none, none, none⟩ true)).1.events.map (fun r => r.description) =
      ["Playing: undefined", "Connecting to server..."] ∧
     (dashStep 8 (mountStep 7 initialDashState)
        (.playSoundLoose ⟨none, none, none, none⟩ true)).2 =
      [AudioAction.setVolume (7/10), AudioAction.setSrc (apiBase ++ "undefined"),
       AudioAction.play] ∧
     ¬ (dashStep 8 (mountStep 7 initialDashState)
        (.playSoundLoose ⟨none, none, none, none⟩ true)).2 = []) := by
  refine ⟨⟨rfl, by decide⟩, by decide, by decide, rfl, ?_⟩
  intro h
  have hl : (dashStep 8 (mountStep 7 initialDashState)
      (.playSoundLoose ⟨none, none, none, none⟩ true)).2.length = 3 := rfl
  rw [h] at hl
  exact absurd hl (by decide)

/-- C5 amended: a payload on which the listener's try block throws is
caught locally on both surfaces and triggers no playback, but only the
dashboard's `play-sound` listener records the failure: it appends exactly
one "error" record describing the parse failure (and touches neither the
sounds-played counter nor the audio slot), while the overlay's
`play-video` listener swallows the failure entirely — no record, no
action, no state change. A schema-violating payload that parses as JSON is
not detected by either handler: the dashboard appends one "sound" record
(interpolating "undefined" for absent fields, with no error record),
increments both counters, and when unmuted issues a playback attempt; the
overlay runs its full reset-and-play sequence, still emitting no record. -/
theorem C5_amended_malformed_payloads (now : Nat) (s : DashState)
    (t : OverlayState) (raw : String) (lp : LooseSoundPayload)
    (lq : LooseVideoPayload) (playOk : Bool)
    (ha : s.esAlive = true) :
    (dashStep now s (.playSound (.malformed raw) playOk)).1.events =
      parseErrorRecord now :: s.events.take 99 ∧
    (dashStep now s (.playSound (.malformed raw) playOk)).1.eventCount = s.eventCount + 1 ∧
    (dashStep now s (.playSound (.malformed raw) playOk)).1.soundsPlayed = s.soundsPlayed ∧
    (dashStep now s (.playSound (.malformed raw) playOk)).2 = [] ∧
    overlayStep now t (.playVideoEvt (.malformed raw) playOk) = (t, [], []) ∧
    (dashStep now s (.playSoundLoose lp true)).1.events =
      looseSoundRecord now lp :: s.events.take 99 ∧
    (dashStep now s (.playSoundLoose lp true)).1.eventCount = s.eventCount + 1 ∧
    (dashStep now s (.playSoundLoose lp true)).1.soundsPlayed = s.soundsPlayed + 1 ∧
    (dashStep now s (.playSoundLoose lp true)).2 =
      (if s.muted then []
       else [AudioAction.setVolume s.volume,
             AudioAction.setSrc (apiBase ++ jsInterp lp.src), AudioAction.play]) ∧
    (overlayStep now t (.playVideoLooseEvt lq playOk)).2.1 =
      (if t.esAlive && t.elPresent then
        [VideoAction.pause, VideoAction.clearSrc, VideoAction.load,
         VideoAction.setSrc (apiBase ++ jsInterp lq.src), VideoAction.setMuted true,
         VideoAction.setVolume 1, VideoAction.play]
      else []) ∧
    (overlayStep now t (.playVideoLooseEvt lq playOk)).2.2 = [] := by
  cases htA : t.esAlive <;> cases htE : t.elPresent <;> cases hm : s.muted <;>
    simp [dashStep, addEvent, ha, htA, htE, hm, parseErrorRecord, overlayStep,
      soundStepLoose, looseSoundRecord, playVideoLooseStep] <;>
      (try split) <;> simp

/-- Witness for C5 amended, at concrete states, a concrete raw payload and
concrete schema-violating payloads with every field absent. -/
theorem C5_amended_malformed_payloads_witness :
    (dashStep 13 (mountStep 7 initialDashState)
        (.playSound (.malformed "oops") true)).1.events =
      parseErrorRecord 13 :: (mountStep 7 initialDashState).events.take 99 ∧
    (dashStep 13 (mountStep 7 initialDashState)
        (.playSound (.malformed "oops") true)).1.eventCount =
      (mountStep 7 initialDashState).eventCount + 1 ∧
    (dashStep 13 (mountStep 7 initialDashState)
        (.playSound (.malformed "oops") true)).1.soundsPlayed =
      (mountStep 7 initialDashState).soundsPlayed ∧
    (dashStep 13 (mountStep 7 initialDashState)
        (.playSound (.malformed "oops") true)).2 = [] ∧
    overlayStep 13 { initialOverlayState with esAlive := true }
        (.playVideoEvt (.malformed "oops") true) =
      ({ initialOverlayState with esAlive := true }, [], []) ∧
    (dashStep 13 (mountStep 7 initialDashState)
        (.playSoundLoose ⟨none, none, none, none⟩ true)).1.events =
      looseSoundRecord 13 ⟨none, none, none, none⟩ ::
        (mountStep 7 initialDashState).events.take 99 ∧
    (dashStep 13 (mountStep 7 initialDashState)
        (.playSoundLoose ⟨none, none, none, none⟩ true)).1.eventCount =
      (mountStep 7 initialDashState).eventCount + 1 ∧
    (dashStep 13 (mountStep 7 initialDashState)
        (.playSoundLoose ⟨none, none, none, none⟩ true)).1.soundsPlayed =
      (mountStep 7 initialDashState).soundsPlayed + 1 ∧
    (dashStep 13 (mountStep 7 initialDashState)
        (.playSoundLoose ⟨none, none, none, none⟩ true)).2 =
      (if (mountStep 7 initialDashState).muted then []
       else [AudioAction.setVolume (mountStep 7 initialDashState).volume,
             AudioAction.setSrc (apiBase ++ jsInterp none), AudioAction.play]) ∧
    (overlayStep 13 { initialOverlayState with esAlive := true }
        (.playVideoLooseEvt ⟨none, none, none⟩ true)).2.1 =
      (if ({ initialOverlayState with esAlive := true } : OverlayState).esAlive &&
          ({ initialOverlayState with esAlive := true } : OverlayState).elPresent then
        [VideoAction.pause, VideoAction.clearSrc, VideoAction.load,
         VideoAction.setSrc (apiBase ++ jsInterp none), VideoAction.setMuted true,
         VideoAction.setVolume 1, VideoAction.play]
      else []) ∧
    (overlayStep 13 { initialOverlayState with esAlive := true }
        (.playVideoLooseEvt ⟨none, none, none⟩ true)).2.2 = [] :=
  C5_amended_malformed_payloads 13 (mountStep 7 initialDashState)
    { initialOverlayState with esAlive := true } "oops" ⟨none, none, none, none⟩
    ⟨none, none, none⟩ true rfl

/-! ### C6: playback-start failures -/

/-- The record appended by the rejection handler of `audio.play()`
(part_000 lines 118-120) at instant `now`. -/
def playFailRecord (now : Nat) (p : SoundPayload) : EventRecord :=
  { id := toString now, type := "error", timestamp := now
    description := "Failed to play: " ++ p.filename, data := none }

/-- C6 counterexample: a video playback-start failure is caught by
`.catch(() => undefined)` (part_000 line 854): the play was attempted
(the step's trace ends in `play`) yet zero EventRecords are emitted, so
this failure is not surfaced as a history record as the claim requires of
every playback-start failure. -/
theorem C6_counterexample_video_play_failure_unrecorded :
    (overlayStep 4 { initialOverlayState with esAlive := true }
        (.playVideoEvt (.parsed ⟨"/v/clip.mp4", none, none⟩) false)).2.1 =
      [VideoAction.pause, VideoAction.clearSrc, VideoAction.load,
       VideoAction.setSrc (apiBase ++ "/v/clip.mp4"), VideoAction.setMuted true,
       VideoAction.setVolume 1, VideoAction.play] ∧
    (overlayStep 4 { initialOverlayState with esAlive := true }
        (.playVideoEvt (.parsed ⟨"/v/clip.mp4", none, none⟩) false)).2.2 = [] ∧
    ¬ (overlayStep 4 { initialOverlayState with esAlive := true }
        (.playVideoEvt (.parsed ⟨"/v/clip.mp4", none, none⟩) false)).2.2.length = 1 := by
  refine ⟨by simp [overlayStep, playVideoStep, initialOverlayState, truthyStr], rfl, by decide⟩

/-- C6 amended: playback-start failures are locally caught and never block
a later cue, but only the audio path surfaces them: a rejected
`audio.play()` appends exactly one "error" record on top of the cue's
"sound" record, with the issued audio actions identical to the successful
case; a rejected video `play()` leaves the whole overlay outcome identical
to the successful case — in particular zero records; and the audio actions
a cue triggers depend only on the mute flag and volume, not on any earlier
failure. -/
theorem C6_amended_play_failures (now : Nat) (s s₂ : DashState)
    (t : OverlayState) (p : SoundPayload) (q : VideoPayload)
    (ha : s.esAlive = true) (hm : s.muted = false)
    (ha₂ : s₂.esAlive = true) (hm₂ : s₂.muted = false) (hv₂ : s₂.volume = s.volume) :
    (dashStep now s (.playSound (.parsed p) false)).1.events =
      playFailRecord now p :: soundRecord now p :: (s.events.take 99).take 98 ∧
    (dashStep now s (.playSound (.parsed p) false)).1.eventCount = s.eventCount + 2 ∧
    (dashStep now s (.playSound (.parsed p) false)).2 =
      (dashStep now s (.playSound (.parsed p) true)).2 ∧
    overlayStep now t (.playVideoEvt (.parsed q) false) =
      overlayStep now t (.playVideoEvt (.parsed q) true) ∧
    (overlayStep now t (.playVideoEvt (.parsed q) false)).2.2 = [] ∧
    (dashStep now s₂ (.playSound (.parsed p) false)).2 =
      (dashStep now s (.playSound (.parsed p) false)).2 := by
  refine ⟨?_, ?_, ?_, rfl, ?_, ?_⟩
  · simp [dashStep, ha, soundStep, addEvent, hm, playFailRecord, soundRecord]
    split <;> simp
  · simp [dashStep, ha, soundStep, addEvent, hm]
    split <;> simp
  · simp [dashStep, ha, soundStep, addEvent, hm]
  · cases htA : t.esAlive <;> cases htE : t.elPresent <;>
      simp [overlayStep, playVideoStep, htA, htE]
  · simp [dashStep, ha, ha₂, soundStep, addEvent, hm, hm₂, hv₂]

/-- Witness for C6 amended at concrete states and payloads. -/
theorem C6_amended_play_failures_witness :
    (dashStep 17 (mountStep 7 initialDashState)
        (.playSound (.parsed ⟨"/s/a.mp3", "a.mp3", none, none⟩) false)).1.events =
      playFailRecord 17 ⟨"/s/a.mp3", "a.mp3", none, none⟩ ::
        soundRecord 17 ⟨"/s/a.mp3", "a.mp3", none, none⟩ ::
          ((mountStep 7 initialDashState).events.take 99).take 98 ∧
    (dashStep 17 (mountStep 7 initialDashState)
        (.playSound (.parsed ⟨"/s/a.mp3", "a.mp3", none, none⟩) false)).1.eventCount =
      (mountStep 7 initialDashState).eventCount + 2 ∧
    (dashStep 17 (mountStep 7 initialDashState)
        (.playSound (.parsed ⟨"/s/a.mp3", "a.mp3", none, none⟩) false)).2 =
      (dashStep 17 (mountStep 7 initialDashState)
        (.playSound (.parsed ⟨"/s/a.mp3", "a.mp3", none, none⟩) true)).2 ∧
    overlayStep 17 { initialOverlayState with esAlive := true }
        (.playVideoEvt (.parsed ⟨"/v/c.mp4", none, none⟩) false) =
      overlayStep 17 { initialOverlayState with esAlive := true }
        (.playVideoEvt (.parsed ⟨"/v/c.mp4", none, none⟩) true) ∧
    (overlayStep 17 { initialOverlayState with esAlive := true }
        (.playVideoEvt (.parsed ⟨"/v/c.mp4", none, none⟩) false)).2.2 = [] ∧
    (dashStep 17 (mountStep 9 initialDashState)
        (.playSound (.parsed ⟨"/s/a.mp3", "a.mp3", none, none⟩) false)).2 =
      (dashStep 17 (mountStep 7 initialDashState)
        (.playSound (.parsed ⟨"/s/a.mp3", "a.mp3", none, none⟩) false)).2 :=
  C6_amended_play_failures 17 (mountStep 7 initialDashState) (mountStep 9 initialDashState)
    { initialOverlayState with esAlive := true }
    ⟨"/s/a.mp3", "a.mp3", none, none⟩ ⟨"/v/c.mp4", none, none⟩ rfl rfl rfl rfl rfl

/-! ### C7: toast lifecycle for a single qualifying cue -/

/-- Run the pending toast-clearance timeouts whose deadline has been
reached by the observation instant `obs`, in order. -/
def fireDue (obs : Nat) (s : DashState) : DashState :=
  (s.toastTimers.filter (fun d => d ≤ obs)).foldl
    (fun st d => (dashStep d st (.toastTimer d)).1) s

/-- C7: every qualifying cue — any username `u` and rewardName `r` that
are both present and non-empty (the JS truthiness of the guard
`payload.username && payload.rewardName`) — handled at instant `t` sets
the toast to that attribution immediately and schedules exactly one
clearance at `t + 5000`; with no further qualifying cues, at any
observation instant strictly before `t + 5000` the toast is still the one
set at `t`, and at any observation instant at or after `t + 5000` the
fired clearance has reset it to none. In particular it is visible at
`t + 4999` and cleared by `t + 5000`. -/
theorem C7_toast_lifecycle (t obs : Nat) (s : DashState) (src fn u r : String)
    (playOk : Bool)
    (ha : s.esAlive = true) (htimers : s.toastTimers = [])
    (hu : u.isEmpty = false) (hr : r.isEmpty = false) :
    (dashStep t s (.playSound (.parsed ⟨src, fn, some u, some r⟩) playOk)).1.toast =
      some ⟨u, r⟩ ∧
    (dashStep t s (.playSound (.parsed ⟨src, fn, some u, some r⟩) playOk)).1.toastTimers =
      [t + 5000] ∧
    (obs < t + 5000 →
      (fireDue obs (dashStep t s
          (.playSound (.parsed ⟨src, fn, some u, some r⟩) playOk)).1).toast =
        some ⟨u, r⟩) ∧
    (t + 5000 ≤ obs →
      (fireDue obs (dashStep t s
          (.playSound (.parsed ⟨src, fn, some u, some r⟩) playOk)).1).toast =
        none) := by
  have hstep :
      (dashStep t s (.playSound (.parsed ⟨src, fn, some u, some r⟩) playOk)).1.toast =
        some ⟨u, r⟩ ∧
      (dashStep t s (.playSound (.parsed ⟨src, fn, some u, some r⟩) playOk)).1.toastTimers =
        [t + 5000] := by
    cases hm : s.muted <;> cases playOk <;>
      simp [dashStep, ha, soundStep, addEvent, hm, truthyStr, htimers, hu, hr]
  refine ⟨hstep.1, hstep.2, ?_, ?_⟩
  · intro hobs
    generalize hS1 : (dashStep t s
        (.playSound (.parsed ⟨src, fn, some u, some r⟩) playOk)).1 = s1 at hstep ⊢
    have hnle : ¬ (t + 5000 ≤ obs) := by omega
    simp [fireDue, hstep.2, hstep.1, List.filter, hnle]
  · intro hobs
    generalize hS1 : (dashStep t s
        (.playSound (.parsed ⟨src, fn, some u, some r⟩) playOk)).1 = s1 at hstep ⊢
    simp [fireDue, hstep.2, List.filter, hobs, dashStep, timerStep]

/-- Witness for C7: a cue at t = 0 on a freshly mounted dashboard with
attribution "alice"/"confetti"; the toast is still shown at observation
instant 4999 and gone at 5000. -/
theorem C7_toast_lifecycle_witness :
    (fireDue 4999 (dashStep 0 (mountStep 0 initialDashState)
        (.playSound (.parsed ⟨"/s/c.mp3", "c.mp3", some "alice", some "confetti"⟩) true)).1).toast =
      some ⟨"alice", "confetti"⟩ ∧
    (fireDue 5000 (dashStep 0 (mountStep 0 initialDashState)
        (.playSound (.parsed ⟨"/s/c.mp3", "c.mp3", some "alice", some "confetti"⟩) true)).1).toast =
      none :=
  ⟨(C7_toast_lifecycle 0 4999 (mountStep 0 initialDashState) "/s/c.mp3" "c.mp3"
      "alice" "confetti" true rfl rfl rfl rfl).2.2.1 (by decide),
   (C7_toast_lifecycle 0 5000 (mountStep 0 initialDashState) "/s/c.mp3" "c.mp3"
      "alice" "confetti" true rfl rfl rfl rfl).2.2.2 (by decide)⟩

/-! ### C8: record ids -/

/-- C8 exhibits the defect: two `addEvent` calls within the same
millisecond (`Date.now()` returning 1700000000000 both times) create two
distinct records — different types and descriptions — that carry the
identical id "1700000000000", although the records are also used as React
list keys and the specification requires ids to be unique monotonic
tokens. -/
theorem C8_duplicate_ids_same_millisecond :
    ((addEvent 1700000000000 "sound" "Playing: a.mp3" none
        (addEvent 1700000000000 "error" "Failed to parse sound event" none
          initialDashState)).events.map (fun r => r.id)) =
      ["1700000000000", "1700000000000"] ∧
    ((addEvent 1700000000000 "sound" "Playing: a.mp3" none
        (addEvent 1700000000000 "error" "Failed to parse sound event" none
          initialDashState)).events.map (fun r => r.type)) =
      ["sound", "error"] ∧
    ¬ (addEvent 1700000000000 "sound" "Playing: a.mp3" none
        (addEvent 1700000000000 "error" "Failed to parse sound event" none
          initialDashState)).events.Pairwise (fun a b => a.id ≠ b.id) := by
  refine ⟨by decide, by decide, ?_⟩
  intro hpw
  simp [addEvent, initialDashState, List.pairwise_cons] at hpw

/-! ### C9: uptime formatting -/

/-- JavaScript `String.prototype.padStart`: left-pad with `pad` up to
length `len`. -/
def padStart (len : Nat) (pad : Char) (s : String) : String :=
  if s.length < len then String.mk (List.replicate (len - s.length) pad) ++ s else s

/-- `formatUptime` (part_000 lines 67-78): "00:00:00" without a connected
timestamp, otherwise hours/minutes/seconds of `Date.now() - connectedAt`,
each `Math.floor`ed and zero-padded to two digits and joined by colons.
`Int.fdiv` is JavaScript's `Math.floor` of the quotient and `Int.tmod`
its `%` remainder. -/
def formatUptime (connectedAt : Option Int) (now : Int) : String :=
  match connectedAt with
  | none => "00:00:00"
  | some c =>
    let diff := now - c
    let hours := Int.fdiv diff (1000 * 60 * 60)
    let minutes := Int.fdiv (Int.tmod diff (1000 * 60 * 60)) (1000 * 60)
    let seconds := Int.fdiv (Int.tmod diff (1000 * 60)) 1000
    padStart 2 '0' (toString hours) ++ ":" ++
    padStart 2 '0' (toString minutes) ++ ":" ++
    padStart 2 '0' (toString seconds)

/-- The 1-second interval handler (part_000 lines 82-87) runs
`setUptime(formatUptime())`: the previous displayed value is ignored. -/
def uptimeTickStep (connectedAt : Option Int) (now : Int)
    (_prevUptime : String) : String :=
  formatUptime connectedAt now

/-- The claim's description of the output, stated over the natural-number
count of elapsed milliseconds: elapsed hours, minutes and seconds, each
zero-padded to two digits and joined by colons. -/
def uptimeSpec (elapsedMs : Nat) : String :=
  padStart 2 '0' (toString (elapsedMs / 3600000)) ++ ":" ++
  padStart 2 '0' (toString (elapsedMs % 3600000 / 60000)) ++ ":" ++
  padStart 2 '0' (toString (elapsedMs % 60000 / 1000))

/-- C9: on a tick with no connected timestamp the handler stores
"00:00:00"; with a connected timestamp `c` and wall clock `now ≥ c` it
stores exactly the zero-padded hours:minutes:seconds of the elapsed
wall-clock difference `now - c`; and the stored value is a full
recomputation, independent of the previously displayed uptime. -/
theorem C9_uptime_format (c nowN : Nat) (prev : String) (h : c ≤ nowN) :
    uptimeTickStep none (nowN : Int) prev = "00:00:00" ∧
    uptimeTickStep (some (c : Int)) (nowN : Int) prev = uptimeSpec (nowN - c) ∧
    ∀ prev₂ : String,
      uptimeTickStep (some (c : Int)) (nowN : Int) prev₂ =
        uptimeTickStep (some (c : Int)) (nowN : Int) prev := by
  refine ⟨rfl, ?_, fun prev₂ => rfl⟩
  have hd : (nowN : Int) - (c : Int) = ((nowN - c : Nat) : Int) := by omega
  simp only [uptimeTickStep, formatUptime, uptimeSpec, hd]
  have h1 : ((1000 * 60 * 60 : Int)) = ((3600000 : Nat) : Int) := by norm_num
  have h2 : ((1000 * 60 : Int)) = ((60000 : Nat) : Int) := by norm_num
  have h3 : ((1000 : Int)) = ((1000 : Nat) : Int) := by norm_num
  rw [h1, h2, h3, ← Int.ofNat_fdiv, ← Int.ofNat_tmod, ← Int.ofNat_fdiv,
    ← Int.ofNat_tmod, ← Int.ofNat_fdiv]
  have h4 : ∀ m : Nat, toString ((m : Nat) : Int) = toString m := fun m => rfl
  rw [h4, h4, h4]

/-- Witness for C9 at one hour, one minute, one second of uptime. -/
theorem C9_uptime_format_witness :
    uptimeTickStep none (3663000 : Int) "xx" = "00:00:00" ∧
    uptimeTickStep (some ((2000 : Nat) : Int)) ((3663000 : Nat) : Int) "xx" =
      uptimeSpec (3663000 - 2000) ∧
    ∀ prev₂ : String,
      uptimeTickStep (some ((2000 : Nat) : Int)) ((3663000 : Nat) : Int) prev₂ =
        uptimeTickStep (some ((2000 : Nat) : Int)) ((3663000 : Nat) : Int) "xx" :=
  C9_uptime_format 2000 3663000 "xx" (by decide)

end HLP
